import Mathlib

/-!
# OpenTTD: viewport dirty-block tracking, tracked viewport signs, aircraft subtypes

A shallow embedding of the inline code of `src/viewport_type.h` and `src/aircraft.h`.

* C++ `int` fields are `Int`, `uint`/`uint8`/`byte` fields are `Nat`; where a value is
  converted to `uint` the reduction modulo `2 ^ 32` is written out (`toUint`).
* `std::vector<bool>` is `List Bool`.
* Methods take the object as an explicit argument and return the updated object.
* Enumerators and functions that live in headers or translation units outside the two
  files are parameters of the definitions that use them. The one value taken for such an
  enumerator, `ZOOM_LVL_OUT_8X = 3`, is used for the monotonicity of the shift only.
-/

namespace OpenTTD

/-! ## Machine integers -/

/-- Number of values of the 32 bit C++ type `uint`. -/
def UINT_MOD : Nat := 2 ^ 32

/-- Conversion of a C++ `int` value to `uint`, as performed when a function declared to
return `uint` returns an `int` expression. -/
def toUint (i : Int) : Nat := (i % (UINT_MOD : Int)).toNat

/-- The C++ expression `1 << s` for `s : uint`, converted to `uint`. The literal `1` is an
`int`; a shift count of 32 or more has no defined result, which is `none` here. -/
def shl1 (s : Nat) : Option Nat :=
  if s < 32 then some ((1 <<< s) % UINT_MOD) else none

/-! ## `zoom_type.h` (not among the sources): what the viewport code uses from it -/

/-- The two enumerators of the enumeration `ZoomLevel` that `ViewPort::GetDirtyBlockShift`
compares against. Values of `ZoomLevel` are natural numbers here (the enumerators count up
from the most zoomed-in level). The numeric values of the two enumerators are fixed in
`zoom_type.h`; the viewport code is embedded for arbitrary values. -/
structure ZoomThresholds where
  /-- The enumerator `ZOOM_LVL_OUT_8X`. -/
  ZOOM_LVL_OUT_8X : Nat
  /-- The enumerator `ZOOM_LVL_DRAW_MAP`: from this level on the viewport is drawn in map mode. -/
  ZOOM_LVL_DRAW_MAP : Nat
  deriving DecidableEq, Repr

/-- Modelled from the spec: the header `zoom_type.h`, which gives the enumerator
`ZOOM_LVL_OUT_8X` ("zoomed 8 times out") its value, is missing from the sources. By the
spec, zoom level 0 is the most zoomed-in level, a higher level is more zoomed out, and a
viewport at level `z` has its screen size "shifted left by the zoom factor"
(`width << zoom`; 640 at level 0, 2560 at level 2). The level that is zoomed out 8 times is
therefore the level `z` with `1 << z = 8`. -/
def ZOOM_LVL_OUT_8X : Nat := 3

/-- The enumeration `ViewportMapType`. -/
inductive ViewportMapType where
  | VPMT_VEGETATION
  | VPMT_OWNER
  | VPMT_INDUSTRY
  | VPMT_END
  deriving DecidableEq, Repr, Inhabited

namespace ViewportMapType

/-- Numeric value of an enumerator. -/
def toNat : ViewportMapType → Nat
  | VPMT_VEGETATION => 0
  | VPMT_OWNER => 1
  | VPMT_INDUSTRY => 2
  | VPMT_END => 3

/-- Enumerator alias `VPMT_BEGIN = 0`. -/
def VPMT_BEGIN : ViewportMapType := VPMT_VEGETATION
/-- Enumerator alias `VPMT_MIN = VPMT_VEGETATION`. -/
def VPMT_MIN : ViewportMapType := VPMT_VEGETATION
/-- Enumerator alias `VPMT_MAX = VPMT_INDUSTRY`. -/
def VPMT_MAX : ViewportMapType := VPMT_INDUSTRY

end ViewportMapType

/-- The struct `ViewPortMapDrawVehiclesCache`. -/
structure ViewPortMapDrawVehiclesCache where
  /-- The array `uint64 done_hash_bits[64]`. -/
  done_hash_bits : List Nat
  vehicle_pixels : List Bool
  deriving DecidableEq, Repr

/-- The struct `ViewPort`: data structure for viewport, display of a part of the world.
The `overlay` shared pointer is represented by the identity of the object it points to
(`none` for a null pointer). -/
structure ViewPort where
  /-- Screen coordinate left edge of the viewport -/
  left : Int
  /-- Screen coordinate top edge of the viewport -/
  top : Int
  /-- Screen width of the viewport -/
  width : Int
  /-- Screen height of the viewport -/
  height : Int
  /-- Virtual left coordinate -/
  virtual_left : Int
  /-- Virtual top coordinate -/
  virtual_top : Int
  /-- Commented in the source as `width << zoom` -/
  virtual_width : Int
  /-- Commented in the source as `height << zoom` -/
  virtual_height : Int
  /-- The zoom level of the viewport. -/
  zoom : Nat
  /-- Rendering type -/
  map_type : ViewportMapType
  overlay : Option Nat
  dirty_blocks : List Bool
  dirty_blocks_per_column : Nat
  dirty_blocks_per_row : Nat
  dirty_block_left_margin : Nat
  is_dirty : Bool
  is_drawn : Bool
  map_draw_vehicles_cache : ViewPortMapDrawVehiclesCache
  deriving DecidableEq, Repr

namespace ViewPort

/-- The private method `ViewPort::GetDirtyBlockShift`:
`if (zoom >= ZOOM_LVL_DRAW_MAP) return 3; if (zoom >= ZOOM_LVL_OUT_8X) return 4; return 7 - zoom;`
with the `int` value `7 - zoom` converted to the return type `uint`. -/
def GetDirtyBlockShift (cfg : ZoomThresholds) (vp : ViewPort) : Nat :=
  if vp.zoom ≥ cfg.ZOOM_LVL_DRAW_MAP then 3
  else if vp.zoom ≥ cfg.ZOOM_LVL_OUT_8X then 4
  else toUint (7 - (vp.zoom : Int))

/-- The method `ViewPort::GetDirtyBlockWidthShift`. -/
def GetDirtyBlockWidthShift (cfg : ZoomThresholds) (vp : ViewPort) : Nat :=
  vp.GetDirtyBlockShift cfg

/-- The method `ViewPort::GetDirtyBlockHeightShift`. -/
def GetDirtyBlockHeightShift (cfg : ZoomThresholds) (vp : ViewPort) : Nat :=
  vp.GetDirtyBlockShift cfg

/-- The method `ViewPort::GetDirtyBlockWidth`: `1 << GetDirtyBlockWidthShift()`. -/
def GetDirtyBlockWidth (cfg : ZoomThresholds) (vp : ViewPort) : Option Nat :=
  shl1 (vp.GetDirtyBlockWidthShift cfg)

/-- The method `ViewPort::GetDirtyBlockHeight`: `1 << GetDirtyBlockHeightShift()`. -/
def GetDirtyBlockHeight (cfg : ZoomThresholds) (vp : ViewPort) : Option Nat :=
  shl1 (vp.GetDirtyBlockHeightShift cfg)

/-- The method `ViewPort::ClearDirty`. `dirty_blocks.assign(dirty_blocks.size(), false)`
replaces the vector by one of the same size holding `false` everywhere. -/
def ClearDirty (vp : ViewPort) : ViewPort :=
  let vp1 :=
    if vp.is_dirty then
      { vp with
        dirty_blocks := List.replicate vp.dirty_blocks.length false
        is_dirty := false }
    else vp
  { vp1 with is_drawn := false }

/-- Every entry of `dirty_blocks` is `false`. -/
def AllBlocksClean (vp : ViewPort) : Prop :=
  ∀ i : Fin vp.dirty_blocks.length, vp.dirty_blocks.get i = false

instance (vp : ViewPort) : Decidable vp.AllBlocksClean := by
  unfold AllBlocksClean; infer_instance

/-- The relation between the two dirty indicators described for `is_dirty` ("true if any
block is marked dirty since last clear"): a block is only marked while `is_dirty` is set. -/
def DirtyFlagConsistent (vp : ViewPort) : Prop :=
  vp.is_dirty = false → vp.AllBlocksClean

instance (vp : ViewPort) : Decidable vp.DirtyFlagConsistent := by
  unfold DirtyFlagConsistent; infer_instance

/-- A viewport value with the given zoom level and dirty state; every other field is zero
or empty. Used to instantiate statements at concrete inputs. -/
def sample (zoom : Nat) (dirty_blocks : List Bool) (is_dirty is_drawn : Bool) : ViewPort :=
  { left := 0, top := 0, width := 0, height := 0
    virtual_left := 0, virtual_top := 0, virtual_width := 0, virtual_height := 0
    zoom := zoom, map_type := ViewportMapType.VPMT_VEGETATION, overlay := none
    dirty_blocks := dirty_blocks
    dirty_blocks_per_column := dirty_blocks.length, dirty_blocks_per_row := 1
    dirty_block_left_margin := 0
    is_dirty := is_dirty, is_drawn := is_drawn
    map_draw_vehicles_cache := { done_hash_bits := List.replicate 64 0, vehicle_pixels := [] } }

end ViewPort

/-- The enumeration `ZoomStateChange`: directions of zooming. -/
inductive ZoomStateChange where
  /-- Zoom in (get more detailed view). -/
  | ZOOM_IN
  /-- Zoom out (get helicopter view). -/
  | ZOOM_OUT
  /-- Hack, used to update the button status. -/
  | ZOOM_NONE
  deriving DecidableEq, Repr

/-- The type `StringID` of `strings_type.h`. -/
abbrev StringID := Nat

/-- The struct `ViewportSign`: location information about a sign as seen on the viewport. -/
structure ViewportSign where
  /-- The center position of the sign -/
  center : Int
  /-- The top of the sign -/
  top : Int
  /-- The width when not zoomed out (normal font) -/
  width_normal : Nat
  /-- The width when zoomed out (small font) -/
  width_small : Nat
  deriving DecidableEq, Repr

/-- The base-class method `ViewportSign::UpdatePosition(maxzoom, center, top, str, str_small)`
is declared in the header and defined elsewhere. Whatever it does, it is a method of the
base class, so it maps the `ViewportSign` part of the object to a new `ViewportSign` part;
the embedding takes it as a parameter of this type. -/
abbrev BaseUpdatePosition :=
  ViewportSign → Nat → Int → Int → StringID → StringID → ViewportSign

/-- The struct `TrackedViewportSign`: specialised `ViewportSign` that tracks whether it is
valid for entering into a Kdtree. -/
structure TrackedViewportSign extends ViewportSign where
  /-- Are the sign data valid for use with the `_viewport_sign_kdtree`? -/
  kdtree_valid : Bool
  deriving DecidableEq, Repr

namespace TrackedViewportSign

/-- The constructor `TrackedViewportSign() : kdtree_valid{ false }`. The members of the
base class are not initialised by it; `uninit` stands for whatever they hold. -/
def construct (uninit : ViewportSign) : TrackedViewportSign :=
  { uninit with kdtree_valid := false }

/-- The method `TrackedViewportSign::UpdatePosition`, which hides the base class function:
`this->kdtree_valid = true; this->ViewportSign::UpdatePosition(maxzoom, center, top, str, str_small);` -/
def UpdatePosition (base : BaseUpdatePosition) (self : TrackedViewportSign)
    (maxzoom : Nat) (center top : Int) (str str_small : StringID) : TrackedViewportSign :=
  let s1 : TrackedViewportSign := { self with kdtree_valid := true }
  { s1 with toViewportSign := base s1.toViewportSign maxzoom center top str str_small }

end TrackedViewportSign

/-! ## `aircraft.h` -/

/-- The enumerator `AIR_HELICOPTER` of `AircraftSubType`: an helicopter. -/
def AIR_HELICOPTER : Nat := 0
/-- The enumerator `AIR_AIRCRAFT` of `AircraftSubType`: an airplane. -/
def AIR_AIRCRAFT : Nat := 2
/-- The enumerator `AIR_SHADOW` of `AircraftSubType`: shadow of the aircraft. -/
def AIR_SHADOW : Nat := 4
/-- The enumerator `AIR_ROTOR` of `AircraftSubType`: rotor of an helicopter. -/
def AIR_ROTOR : Nat := 6

/-- The values of the enumeration `AircraftSubType`. -/
def AircraftSubType : List Nat := [AIR_HELICOPTER, AIR_AIRCRAFT, AIR_SHADOW, AIR_ROTOR]

/-- The struct `AircraftCache`: cached oftenly queried (NewGRF) values. -/
structure AircraftCache where
  /-- Cached maximum speed of the aircraft. -/
  cached_max_speed : Nat
  deriving DecidableEq, Repr

/-- The struct `Aircraft`. Of the members inherited from `Vehicle` (through
`SpecializedVehicle<Aircraft, VEH_AIRCRAFT>`) only `subtype`, a `byte`, is read by the
code embedded here. -/
structure Aircraft where
  /-- Inherited member `subtype`. -/
  subtype : Nat
  /-- Cache of often used calculated values -/
  acache : AircraftCache
  /-- Timer for handling crash animations. -/
  crashed_counter : Nat
  /-- Next desired position of the aircraft. -/
  pos : Nat
  /-- Previous desired position of the aircraft. -/
  previous_pos : Nat
  /-- Airport to go to next. -/
  targetairport : Nat
  /-- State of the airport. -/
  state : Nat
  last_direction : Nat
  /-- Protection to prevent the aircraft of making a lot of turns in order to reach a specific point. -/
  number_consecutive_turns : Nat
  /-- Ticks between each turn to prevent > 45 degree turns. -/
  turn_counter : Nat
  deriving DecidableEq, Repr

namespace Aircraft

/-- The method `Aircraft::IsNormalAircraft`: `return this->subtype <= AIR_AIRCRAFT;` -/
def IsNormalAircraft (v : Aircraft) : Bool :=
  decide (v.subtype ≤ AIR_AIRCRAFT)

/-- The test that the comment inside `IsNormalAircraft` calls "the proper one":
`(this->subtype == AIR_HELICOPTER) || (this->subtype == AIR_AIRCRAFT)`. -/
def IsNormalAircraft_reference (v : Aircraft) : Bool :=
  (v.subtype == AIR_HELICOPTER) || (v.subtype == AIR_AIRCRAFT)

/-- The method `Aircraft::IsPrimaryVehicle`: `return this->IsNormalAircraft();` -/
def IsPrimaryVehicle (v : Aircraft) : Bool :=
  v.IsNormalAircraft

/-- An aircraft value with the given subtype; every other field is zero. Used to
instantiate statements at concrete inputs. -/
def sample (subtype : Nat) : Aircraft :=
  { subtype := subtype, acache := { cached_max_speed := 0 }, crashed_counter := 0
    pos := 0, previous_pos := 0, targetairport := 0, state := 0, last_direction := 0
    number_consecutive_turns := 0, turn_counter := 0 }

end Aircraft

/-! ## Facts about the machine-integer helpers -/

theorem toUint_of_le_seven (z : Nat) (h : z ≤ 7) : toUint (7 - (z : Int)) = 7 - z := by
  unfold toUint UINT_MOD
  interval_cases z <;> decide

theorem shl1_of_lt (s : Nat) (h : s < 32) : shl1 s = some (2 ^ s) := by
  unfold shl1 UINT_MOD
  rw [if_pos h, Nat.shiftLeft_eq, one_mul, Nat.mod_eq_of_lt]
  exact Nat.pow_lt_pow_right (by decide) h


/-! ## Facts about `ClearDirty` shared by the statements below -/

theorem ClearDirty_of_dirty (vp : ViewPort) (h : vp.is_dirty = true) :
    vp.ClearDirty =
      { vp with
        dirty_blocks := List.replicate vp.dirty_blocks.length false
        is_dirty := false
        is_drawn := false } := by
  simp [ViewPort.ClearDirty, h]

theorem ClearDirty_of_clean (vp : ViewPort) (h : vp.is_dirty = false) :
    vp.ClearDirty = { vp with is_drawn := false } := by
  simp [ViewPort.ClearDirty, h]

theorem ClearDirty_is_dirty (vp : ViewPort) : vp.ClearDirty.is_dirty = false := by
  cases h : vp.is_dirty
  · rw [ClearDirty_of_clean vp h]; exact h
  · rw [ClearDirty_of_dirty vp h]

theorem allBlocksClean_replicate (vp : ViewPort) (n : Nat)
    (h : vp.dirty_blocks = List.replicate n false) : vp.AllBlocksClean := by
  intro i
  have hmem : vp.dirty_blocks.get i ∈ List.replicate n false := by
    rw [← h]; exact List.get_mem _ _ _
  exact (List.mem_replicate.mp hmem).2

theorem ClearDirty_allBlocksClean (vp : ViewPort) (h : vp.DirtyFlagConsistent) :
    vp.ClearDirty.AllBlocksClean := by
  cases hd : vp.is_dirty
  · have hc := h hd
    rw [ClearDirty_of_clean vp hd]
    exact hc
  · rw [ClearDirty_of_dirty vp hd]
    exact allBlocksClean_replicate _ vp.dirty_blocks.length rfl

/-! ## Facts about `GetDirtyBlockShift` shared by the statements below -/

theorem shift_of_draw_map (cfg : ZoomThresholds) (vp : ViewPort)
    (h : cfg.ZOOM_LVL_DRAW_MAP ≤ vp.zoom) : vp.GetDirtyBlockShift cfg = 3 := by
  simp [ViewPort.GetDirtyBlockShift, h]

theorem shift_of_out_8x (cfg : ZoomThresholds) (vp : ViewPort)
    (h1 : vp.zoom < cfg.ZOOM_LVL_DRAW_MAP) (h2 : cfg.ZOOM_LVL_OUT_8X ≤ vp.zoom) :
    vp.GetDirtyBlockShift cfg = 4 := by
  simp [ViewPort.GetDirtyBlockShift, Nat.not_le.mpr h1, h2]

theorem shift_of_below (cfg : ZoomThresholds) (vp : ViewPort)
    (h1 : vp.zoom < cfg.ZOOM_LVL_DRAW_MAP) (h2 : vp.zoom < cfg.ZOOM_LVL_OUT_8X) :
    vp.GetDirtyBlockShift cfg = toUint (7 - (vp.zoom : Int)) := by
  simp [ViewPort.GetDirtyBlockShift, Nat.not_le.mpr h1, Nat.not_le.mpr h2]

theorem shift_of_below_le_seven (cfg : ZoomThresholds) (vp : ViewPort)
    (h1 : vp.zoom < cfg.ZOOM_LVL_DRAW_MAP) (h2 : vp.zoom < cfg.ZOOM_LVL_OUT_8X)
    (h7 : vp.zoom ≤ 7) : vp.GetDirtyBlockShift cfg = 7 - vp.zoom := by
  rw [shift_of_below cfg vp h1 h2, toUint_of_le_seven _ h7]

/-! ## The dirty block shift -/

/-- C1: for every viewport, the width shift and the height shift both are the dirty block
shift, which is 3 when `zoom >= ZOOM_LVL_DRAW_MAP`, otherwise 4 when
`zoom >= ZOOM_LVL_OUT_8X`, otherwise `7 - zoom` as a `uint`: the integer `7 - zoom` reduced
modulo `2 ^ 32`, which is the integer `7 - zoom` itself whenever `zoom <= 7`. -/
theorem GetDirtyBlockShift_policy (cfg : ZoomThresholds) (vp : ViewPort) :
    vp.GetDirtyBlockWidthShift cfg = vp.GetDirtyBlockShift cfg ∧
    vp.GetDirtyBlockHeightShift cfg = vp.GetDirtyBlockShift cfg ∧
    (cfg.ZOOM_LVL_DRAW_MAP ≤ vp.zoom → vp.GetDirtyBlockShift cfg = 3) ∧
    (vp.zoom < cfg.ZOOM_LVL_DRAW_MAP → cfg.ZOOM_LVL_OUT_8X ≤ vp.zoom →
      vp.GetDirtyBlockShift cfg = 4) ∧
    (vp.zoom < cfg.ZOOM_LVL_DRAW_MAP → vp.zoom < cfg.ZOOM_LVL_OUT_8X →
      ((vp.GetDirtyBlockShift cfg : Nat) : Int) = (7 - (vp.zoom : Int)) % 2 ^ 32 ∧
      (vp.zoom ≤ 7 → ((vp.GetDirtyBlockShift cfg : Nat) : Int) = 7 - (vp.zoom : Int))) := by
  refine ⟨rfl, rfl, shift_of_draw_map cfg vp, shift_of_out_8x cfg vp, ?_⟩
  intro h1 h2
  refine ⟨?_, ?_⟩
  · rw [shift_of_below cfg vp h1 h2]
    unfold toUint UINT_MOD
    have hnn : (0 : Int) ≤ (7 - (vp.zoom : Int)) % 2 ^ 32 :=
      Int.emod_nonneg _ (by norm_num)
    rw [Int.toNat_of_nonneg (by exact_mod_cast hnn)]
    norm_num
  · intro h7
    rw [shift_of_below_le_seven cfg vp h1 h2 h7]
    omega

/-- C1 at concrete inputs, with thresholds 3 and 6: zoom 7 gives 3, zoom 4 gives 4, zoom 2
gives 5. -/
theorem GetDirtyBlockShift_policy_witness :
    (ViewPort.sample 7 [] false false).GetDirtyBlockWidthShift ⟨3, 6⟩ = 3 ∧
    (ViewPort.sample 4 [] false false).GetDirtyBlockHeightShift ⟨3, 6⟩ = 4 ∧
    (((ViewPort.sample 2 [] false false).GetDirtyBlockShift ⟨3, 6⟩ : Nat) : Int) = 7 - 2 := by
  have h7 := GetDirtyBlockShift_policy ⟨3, 6⟩ (ViewPort.sample 7 [] false false)
  have h4 := GetDirtyBlockShift_policy ⟨3, 6⟩ (ViewPort.sample 4 [] false false)
  have h2 := GetDirtyBlockShift_policy ⟨3, 6⟩ (ViewPort.sample 2 [] false false)
  refine ⟨?_, ?_, ?_⟩
  · rw [h7.1]; exact h7.2.2.1 (by decide)
  · rw [h4.2.1]; exact h4.2.2.2.1 (by decide) (by decide)
  · exact (h2.2.2.2.2 (by decide) (by decide)).2 (by decide)

/-- The level modelled for `ZOOM_LVL_OUT_8X` is the one and only level whose scale factor
`2 ^ z` is 8. -/
theorem ZOOM_LVL_OUT_8X_scale (z : Nat) : 2 ^ z = 8 ↔ z = ZOOM_LVL_OUT_8X := by
  unfold ZOOM_LVL_OUT_8X
  constructor
  · intro h
    exact Nat.pow_right_injective (le_refl 2) (h.trans (by norm_num : 8 = 2 ^ 3))
  · intro h
    rw [h]
    norm_num

/-- The side condition of `shift_le_of_zoom_le` is also necessary: thresholds for which the
shift is non-increasing in the zoom level have `ZOOM_LVL_OUT_8X <= 4` or
`ZOOM_LVL_DRAW_MAP <= 5`. -/
theorem shift_monotone_needs_side_condition (cfg : ZoomThresholds)
    (h : ∀ vp1 vp2 : ViewPort, vp1.zoom ≤ vp2.zoom →
      vp2.GetDirtyBlockShift cfg ≤ vp1.GetDirtyBlockShift cfg) :
    cfg.ZOOM_LVL_OUT_8X ≤ 4 ∨ cfg.ZOOM_LVL_DRAW_MAP ≤ 5 := by
  by_contra hc
  push_neg at hc
  obtain ⟨h8, hm⟩ := hc
  by_cases h5 : cfg.ZOOM_LVL_OUT_8X = 5
  · have hle := h (ViewPort.sample 4 [] false false) (ViewPort.sample 5 [] false false)
      (by decide)
    rw [shift_of_out_8x cfg (ViewPort.sample 5 [] false false)
          (by simp only [ViewPort.sample]; omega) (by simp only [ViewPort.sample]; omega),
        shift_of_below_le_seven cfg (ViewPort.sample 4 [] false false)
          (by simp only [ViewPort.sample]; omega) (by simp only [ViewPort.sample]; omega)
          (by decide)] at hle
    simp [ViewPort.sample] at hle
  · have hle := h (ViewPort.sample 5 [] false false)
      (ViewPort.sample (max 5 cfg.ZOOM_LVL_DRAW_MAP) [] false false)
      (by simp [ViewPort.sample])
    rw [shift_of_draw_map cfg (ViewPort.sample (max 5 cfg.ZOOM_LVL_DRAW_MAP) [] false false)
          (by simp [ViewPort.sample]),
        shift_of_below_le_seven cfg (ViewPort.sample 5 [] false false)
          (by simp only [ViewPort.sample]; omega) (by simp only [ViewPort.sample]; omega)
          (by decide)] at hle
    simp [ViewPort.sample] at hle

/-- C6: with `ZOOM_LVL_OUT_8X <= 7`, for every viewport `GetDirtyBlockWidth()` and
`GetDirtyBlockHeight()` both are `1 << shift` for the dirty block shift of the viewport;
they are equal, they are the power of two `2 ^ shift`, and they are 8 at or above
`ZOOM_LVL_DRAW_MAP`, 16 at or above `ZOOM_LVL_OUT_8X` and below `ZOOM_LVL_DRAW_MAP`, and
`128 >> zoom` below both thresholds. -/
theorem GetDirtyBlockWidth_Height (cfg : ZoomThresholds) (vp : ViewPort)
    (h8 : cfg.ZOOM_LVL_OUT_8X ≤ 7) :
    vp.GetDirtyBlockWidth cfg = shl1 (vp.GetDirtyBlockShift cfg) ∧
    vp.GetDirtyBlockHeight cfg = shl1 (vp.GetDirtyBlockShift cfg) ∧
    vp.GetDirtyBlockWidth cfg = vp.GetDirtyBlockHeight cfg ∧
    vp.GetDirtyBlockWidth cfg = some (2 ^ vp.GetDirtyBlockShift cfg) ∧
    (cfg.ZOOM_LVL_DRAW_MAP ≤ vp.zoom → vp.GetDirtyBlockWidth cfg = some 8) ∧
    (vp.zoom < cfg.ZOOM_LVL_DRAW_MAP → cfg.ZOOM_LVL_OUT_8X ≤ vp.zoom →
      vp.GetDirtyBlockWidth cfg = some 16) ∧
    (vp.zoom < cfg.ZOOM_LVL_DRAW_MAP → vp.zoom < cfg.ZOOM_LVL_OUT_8X →
      vp.GetDirtyBlockWidth cfg = some (128 >>> vp.zoom)) := by
  have hw : vp.GetDirtyBlockWidth cfg = shl1 (vp.GetDirtyBlockShift cfg) := rfl
  have hlt : vp.GetDirtyBlockShift cfg < 32 := by
    by_cases h1 : cfg.ZOOM_LVL_DRAW_MAP ≤ vp.zoom
    · rw [shift_of_draw_map cfg vp h1]; decide
    · by_cases h2 : cfg.ZOOM_LVL_OUT_8X ≤ vp.zoom
      · rw [shift_of_out_8x cfg vp (by omega) h2]; decide
      · rw [shift_of_below_le_seven cfg vp (by omega) (by omega) (by omega)]; omega
  refine ⟨hw, rfl, rfl, ?_, ?_, ?_, ?_⟩
  · rw [hw, shl1_of_lt _ hlt]
  · intro h1
    rw [hw, shift_of_draw_map cfg vp h1]; rfl
  · intro h1 h2
    rw [hw, shift_of_out_8x cfg vp h1 h2]; rfl
  · intro h1 h2
    rw [hw, shift_of_below_le_seven cfg vp h1 h2 (by omega)]
    have h6 : vp.zoom ≤ 6 := by omega
    generalize vp.zoom = z at h6
    interval_cases z <;> rfl

/-- C6 at thresholds 3 and 6 and zoom 2: blocks are 32 by 32 pixels, which is `128 >> 2`. -/
theorem GetDirtyBlockWidth_Height_witness :
    (ViewPort.sample 2 [] false false).GetDirtyBlockWidth ⟨3, 6⟩ = some 32 ∧
    (ViewPort.sample 2 [] false false).GetDirtyBlockHeight ⟨3, 6⟩ = some 32 := by
  have h := GetDirtyBlockWidth_Height ⟨3, 6⟩ (ViewPort.sample 2 [] false false) (by decide)
  have hw := h.2.2.2.2.2.2 (by decide) (by decide)
  exact ⟨hw, h.2.2.1 ▸ hw⟩

/-! ## `ClearDirty` -/

/-- C3: postcondition of `ClearDirty()` for every viewport state. If `is_dirty` was true,
afterwards every entry of `dirty_blocks` is false and `is_dirty` is false; if `is_dirty`
was false, `dirty_blocks` and `is_dirty` are as they were; in both cases `is_drawn` is
false afterwards. -/
theorem ClearDirty_postcondition (vp : ViewPort) :
    (vp.is_dirty = true →
      vp.ClearDirty.AllBlocksClean ∧ vp.ClearDirty.is_dirty = false) ∧
    (vp.is_dirty = false →
      vp.ClearDirty.dirty_blocks = vp.dirty_blocks ∧
      vp.ClearDirty.is_dirty = vp.is_dirty) ∧
    vp.ClearDirty.is_drawn = false := by
  refine ⟨?_, ?_, ?_⟩
  · intro h
    refine ⟨?_, ClearDirty_is_dirty vp⟩
    rw [ClearDirty_of_dirty vp h]
    exact allBlocksClean_replicate _ vp.dirty_blocks.length rfl
  · intro h
    rw [ClearDirty_of_clean vp h]
    exact ⟨rfl, rfl⟩
  · cases h : vp.is_dirty
    · rw [ClearDirty_of_clean vp h]
    · rw [ClearDirty_of_dirty vp h]

/-- C3 at two concrete states: a dirty viewport with blocks `[true, false, true]` is
cleared, a viewport that is not dirty keeps its blocks. -/
theorem ClearDirty_postcondition_witness :
    (ViewPort.sample 2 [true, false, true] true true).ClearDirty.AllBlocksClean ∧
    (ViewPort.sample 2 [true, false, true] true true).ClearDirty.dirty_blocks
      = [false, false, false] ∧
    (ViewPort.sample 2 [false, false] false true).ClearDirty.dirty_blocks = [false, false] ∧
    (ViewPort.sample 2 [false, false] false true).ClearDirty.is_drawn = false :=
  ⟨((ClearDirty_postcondition (ViewPort.sample 2 [true, false, true] true true)).1 rfl).1,
   by decide,
   ((ClearDirty_postcondition (ViewPort.sample 2 [false, false] false true)).2.1 rfl).1,
   (ClearDirty_postcondition (ViewPort.sample 2 [false, false] false true)).2.2⟩

/-- C4 as stated fails: on a state whose `is_dirty` is false while an entry of
`dirty_blocks` is true, `ClearDirty()` skips the bulk clear, so the entry is still true
after one call and after two. -/
theorem ClearDirty_keeps_marked_block_when_not_dirty :
    (ViewPort.sample 0 [true] false false).ClearDirty.dirty_blocks = [true] ∧
    (ViewPort.sample 0 [true] false false).ClearDirty.ClearDirty.dirty_blocks = [true] ∧
    ¬ (ViewPort.sample 0 [true] false false).ClearDirty.AllBlocksClean ∧
    ¬ (ViewPort.sample 0 [true] false false).ClearDirty.ClearDirty.AllBlocksClean := by
  decide

/-- C4, amended: for every viewport state in which `is_dirty` is true whenever an entry of
`dirty_blocks` is true, after `ClearDirty()`, and again after a second `ClearDirty()`
called immediately afterwards, every entry of `dirty_blocks` is false and `is_dirty` is
false. -/
theorem ClearDirty_twice_clean (vp : ViewPort) (h : vp.DirtyFlagConsistent) :
    (vp.ClearDirty.AllBlocksClean ∧ vp.ClearDirty.is_dirty = false) ∧
    (vp.ClearDirty.ClearDirty.AllBlocksClean ∧ vp.ClearDirty.ClearDirty.is_dirty = false) := by
  have h1 : vp.ClearDirty.AllBlocksClean := ClearDirty_allBlocksClean vp h
  have h2 : vp.ClearDirty.DirtyFlagConsistent := fun _ => h1
  exact ⟨⟨h1, ClearDirty_is_dirty vp⟩,
    ⟨ClearDirty_allBlocksClean vp.ClearDirty h2, ClearDirty_is_dirty vp.ClearDirty⟩⟩

/-- C4, amended, at a dirty viewport with blocks `[true, false]`. -/
theorem ClearDirty_twice_clean_witness :
    (ViewPort.sample 1 [true, false] true true).DirtyFlagConsistent ∧
    (ViewPort.sample 1 [true, false] true true).ClearDirty.AllBlocksClean ∧
    (ViewPort.sample 1 [true, false] true true).ClearDirty.ClearDirty.AllBlocksClean ∧
    (ViewPort.sample 1 [true, false] true true).ClearDirty.ClearDirty.is_dirty = false :=
  ⟨by decide,
   (ClearDirty_twice_clean (ViewPort.sample 1 [true, false] true true) (by decide)).1.1,
   (ClearDirty_twice_clean (ViewPort.sample 1 [true, false] true true) (by decide)).2.1,
   (ClearDirty_twice_clean (ViewPort.sample 1 [true, false] true true) (by decide)).2.2⟩

/-- C5: `ClearDirty()` is idempotent: for every viewport state the state after two
consecutive calls is, field by field, the state after one call. -/
theorem ClearDirty_idempotent (vp : ViewPort) :
    vp.ClearDirty.ClearDirty = vp.ClearDirty := by
  rw [ClearDirty_of_clean vp.ClearDirty (ClearDirty_is_dirty vp)]
  cases h : vp.is_dirty
  · rw [ClearDirty_of_clean vp h]
  · rw [ClearDirty_of_dirty vp h]

/-- C10: frame of `ClearDirty()`. For every viewport state the call leaves the length of
`dirty_blocks` and every field other than `dirty_blocks`, `is_dirty` and `is_drawn`
unchanged; so it preserves `dirty_blocks.size() == dirty_blocks_per_column *
dirty_blocks_per_row` and leaves the dirty block shift unchanged. -/
theorem ClearDirty_frame (cfg : ZoomThresholds) (vp : ViewPort) :
    vp.ClearDirty.dirty_blocks.length = vp.dirty_blocks.length ∧
    vp.ClearDirty.left = vp.left ∧ vp.ClearDirty.top = vp.top ∧
    vp.ClearDirty.width = vp.width ∧ vp.ClearDirty.height = vp.height ∧
    vp.ClearDirty.virtual_left = vp.virtual_left ∧
    vp.ClearDirty.virtual_top = vp.virtual_top ∧
    vp.ClearDirty.virtual_width = vp.virtual_width ∧
    vp.ClearDirty.virtual_height = vp.virtual_height ∧
    vp.ClearDirty.zoom = vp.zoom ∧ vp.ClearDirty.map_type = vp.map_type ∧
    vp.ClearDirty.overlay = vp.overlay ∧
    vp.ClearDirty.dirty_blocks_per_column = vp.dirty_blocks_per_column ∧
    vp.ClearDirty.dirty_blocks_per_row = vp.dirty_blocks_per_row ∧
    vp.ClearDirty.dirty_block_left_margin = vp.dirty_block_left_margin ∧
    vp.ClearDirty.map_draw_vehicles_cache = vp.map_draw_vehicles_cache ∧
    (vp.dirty_blocks.length = vp.dirty_blocks_per_column * vp.dirty_blocks_per_row →
      vp.ClearDirty.dirty_blocks.length =
        vp.ClearDirty.dirty_blocks_per_column * vp.ClearDirty.dirty_blocks_per_row) ∧
    vp.ClearDirty.GetDirtyBlockShift cfg = vp.GetDirtyBlockShift cfg := by
  cases h : vp.is_dirty
  · rw [ClearDirty_of_clean vp h]
    simp [ViewPort.GetDirtyBlockShift]
  · rw [ClearDirty_of_dirty vp h]
    simp [ViewPort.GetDirtyBlockShift]

/-- C10 at a dirty viewport with two blocks: the size relation holds before and after. -/
theorem ClearDirty_frame_witness :
    (ViewPort.sample 2 [true, false] true true).ClearDirty.dirty_blocks.length =
      (ViewPort.sample 2 [true, false] true true).ClearDirty.dirty_blocks_per_column *
        (ViewPort.sample 2 [true, false] true true).ClearDirty.dirty_blocks_per_row :=
  (ClearDirty_frame ⟨3, 6⟩ (ViewPort.sample 2 [true, false] true true)).2.2.2.2.2.2.2.2.2.2.2.2.2.2.2.2.1
    (by decide)

/-! ## `TrackedViewportSign` -/

/-- C7: a freshly constructed `TrackedViewportSign` has `kdtree_valid == false`; and for
every base-class `UpdatePosition`, every state of the sign and every argument tuple
`(maxzoom, center, top, str, str_small)`, after `TrackedViewportSign::UpdatePosition` the
flag `kdtree_valid` is true. -/
theorem TrackedViewportSign_kdtree_valid (uninit : ViewportSign) (base : BaseUpdatePosition)
    (self : TrackedViewportSign) (maxzoom : Nat) (center top : Int)
    (str str_small : StringID) :
    (TrackedViewportSign.construct uninit).kdtree_valid = false ∧
    (self.UpdatePosition base maxzoom center top str str_small).kdtree_valid = true ∧
    (self.UpdatePosition base maxzoom center top str str_small).toViewportSign =
      base self.toViewportSign maxzoom center top str str_small :=
  ⟨rfl, rfl, rfl⟩

/-- C7 on a fresh sign, with a base-class update that stores `center` and `top` and sets
both widths to 10: the flag goes from false to true. -/
theorem TrackedViewportSign_kdtree_valid_witness :
    (TrackedViewportSign.construct ⟨0, 0, 0, 0⟩).kdtree_valid = false ∧
    ((TrackedViewportSign.construct ⟨0, 0, 0, 0⟩).UpdatePosition
      (fun _ _ c t _ _ => ⟨c, t, 10, 10⟩) 2 100 50 1 0).kdtree_valid = true :=
  ⟨(TrackedViewportSign_kdtree_valid ⟨0, 0, 0, 0⟩ (fun _ _ c t _ _ => ⟨c, t, 10, 10⟩)
      (TrackedViewportSign.construct ⟨0, 0, 0, 0⟩) 2 100 50 1 0).1,
   (TrackedViewportSign_kdtree_valid ⟨0, 0, 0, 0⟩ (fun _ _ c t _ _ => ⟨c, t, 10, 10⟩)
      (TrackedViewportSign.construct ⟨0, 0, 0, 0⟩) 2 100 50 1 0).2.1⟩

/-! ## `Aircraft` -/

/-- C8: for every aircraft whose subtype is one of the four `AircraftSubType` values, the
implemented test `subtype <= AIR_AIRCRAFT` of `IsNormalAircraft()` equals the reference
test `(subtype == AIR_HELICOPTER) || (subtype == AIR_AIRCRAFT)`; it is true for a
helicopter or an airplane and false for a shadow or a rotor; and `IsPrimaryVehicle()`
returns the same value. -/
theorem IsNormalAircraft_correct (v : Aircraft) (h : v.subtype ∈ AircraftSubType) :
    v.IsNormalAircraft = v.IsNormalAircraft_reference ∧
    v.IsPrimaryVehicle = v.IsNormalAircraft ∧
    (v.subtype = AIR_HELICOPTER ∨ v.subtype = AIR_AIRCRAFT → v.IsNormalAircraft = true) ∧
    (v.subtype = AIR_SHADOW ∨ v.subtype = AIR_ROTOR → v.IsNormalAircraft = false) := by
  simp only [AircraftSubType, List.mem_cons, List.mem_singleton, List.not_mem_nil,
    or_false] at h
  unfold Aircraft.IsPrimaryVehicle Aircraft.IsNormalAircraft Aircraft.IsNormalAircraft_reference
  rcases h with h | h | h | h <;> rw [h] <;> decide

/-- C8 at the four subtypes. -/
theorem IsNormalAircraft_correct_witness :
    (Aircraft.sample AIR_HELICOPTER).IsNormalAircraft = true ∧
    (Aircraft.sample AIR_AIRCRAFT).IsNormalAircraft = true ∧
    (Aircraft.sample AIR_SHADOW).IsNormalAircraft = false ∧
    (Aircraft.sample AIR_ROTOR).IsPrimaryVehicle = false :=
  ⟨(IsNormalAircraft_correct (Aircraft.sample AIR_HELICOPTER) (by decide)).2.2.1 (Or.inl rfl),
   (IsNormalAircraft_correct (Aircraft.sample AIR_AIRCRAFT) (by decide)).2.2.1 (Or.inr rfl),
   (IsNormalAircraft_correct (Aircraft.sample AIR_SHADOW) (by decide)).2.2.2 (Or.inl rfl),
   ((IsNormalAircraft_correct (Aircraft.sample AIR_ROTOR) (by decide)).2.1).trans
     ((IsNormalAircraft_correct (Aircraft.sample AIR_ROTOR) (by decide)).2.2.2 (Or.inr rfl))⟩

/-- Outside the four `AircraftSubType` values the two tests differ: at subtype 1 the
implemented test is true and the reference test is false. -/
theorem IsNormalAircraft_differs_at_one :
    (Aircraft.sample 1).IsNormalAircraft = true ∧
    (Aircraft.sample 1).IsNormalAircraft_reference = false := by
  decide

end OpenTTD
